import Mathlib

/-!
Verification of the Exoscale kubeconfig store adapter
(`pkg/store/kubeconfig_store_exoscale.go`).

The adapter has two components:
- discovery (`StartSearch`): lists all zones, lists SKS clusters per zone,
  records each cluster in an in-memory index keyed by its UUID, and emits
  one search result per cluster on a channel;
- credential materialization (`GetKubeconfigForPath`): parses a
  `zoneName/clusterName` path, looks the cluster up in the index, asks the
  provider for a kubeconfig, decodes and parses it, renames the cluster,
  context and current-context entries from the provider UUID to the cluster
  name, and serializes it back.

External collaborators (the Exoscale SDK client, base64 decoding, the
clientcmd kubeconfig parser/serializer) are modelled as oracles supplied in
an environment record.  Go maps are modelled as association lists; Go's
arbitrary map-iteration order becomes list order, a deterministic stand-in.
-/

/-- Association-list lookup, modelling Go map read `m[k]`. -/
def mapLookup (m : List (String × α)) (k : String) : Option α :=
  (m.find? (fun p => p.1 == k)).map Prod.snd

/-- Association-list insert, modelling Go map write `m[k] = v`
(replaces an existing binding, otherwise adds one). -/
def mapInsert (m : List (String × α)) (k : String) (v : α) : List (String × α) :=
  if (mapLookup m k).isSome then
    m.map (fun p => if p.1 == k then (k, v) else p)
  else
    m ++ [(k, v)]

/-- Association-list erase, modelling Go `delete(m, k)`. -/
def mapErase (m : List (String × α)) (k : String) : List (String × α) :=
  m.filter (fun p => p.1 != k)

/-- One context entry of a kubeconfig: references a cluster name and an
auth-info (user) name, as in `clientcmdapi.Context`. -/
structure KubeContext where
  cluster : String
  authInfo : String
deriving DecidableEq, Repr

/-- Structured kubeconfig document, as produced by `clientcmd.Load`:
named cluster entries, named context entries, named auth-info (user)
entries, and the current-context pointer.  Cluster and user payloads
(certificates, endpoints, tokens) are opaque to the rewrite and modelled
as strings. -/
structure Kubeconfig where
  clusters : List (String × String)
  contexts : List (String × KubeContext)
  authInfos : List (String × String)
  currentContext : String
deriving DecidableEq, Repr

/-- The `oldClusterName` detection of `GetKubeconfigForPath`: Go ranges over
`cfg.Clusters` and takes the first key, leaving the zero value `""` when the
map is empty.  List order stands in for Go's arbitrary map order. -/
def oldClusterName (cfg : Kubeconfig) : String :=
  match cfg.clusters with
  | [] => ""
  | (k, _) :: _ => k

/-- The identity-rewrite step of `GetKubeconfigForPath` (source lines
233-261): move the cluster entry from the detected old name to
`clusterName`, move the context entry likewise (updating its cluster
reference), and update the current-context pointer when it equals the old
name.  Each move mirrors Go exactly: write the new key first, then delete
the old key. -/
def rewriteIdentity (cfg : Kubeconfig) (clusterName : String) : Kubeconfig :=
  let oldName := oldClusterName cfg
  let cfg1 :=
    match mapLookup cfg.clusters oldName with
    | some c =>
        { cfg with clusters := mapErase (mapInsert cfg.clusters clusterName c) oldName }
    | none => cfg
  let cfg2 :=
    match mapLookup cfg1.contexts oldName with
    | some ctx =>
        let ctx2 := { ctx with cluster := clusterName }
        { cfg1 with contexts := mapErase (mapInsert cfg1.contexts clusterName ctx2) oldName }
    | none => cfg1
  if cfg2.currentContext == oldName then
    { cfg2 with currentContext := clusterName }
  else
    cfg2

/-- An Exoscale zone as returned by `Client.ListZones`: name and zone-scoped
API endpoint. -/
structure Zone where
  Name : String
  APIEndpoint : String
deriving DecidableEq, Repr

/-- An SKS cluster summary as returned by `ListSKSClusters`: provider UUID
and human-assigned name. -/
structure SKSCluster where
  ID : String
  Name : String
deriving DecidableEq, Repr

/-- One discovered SKS cluster with its zone binding (`ExoscaleKube` in the
source). -/
structure ExoscaleKube where
  ID : String
  Name : String
  ZoneName : String
  ZoneEndpoint : String
deriving DecidableEq, Repr

/-- The in-memory index `DiscoveredClusters : map[v3.UUID]ExoscaleKube`,
modelled as an association list keyed by the cluster UUID. -/
abbrev Index : Type := List (String × ExoscaleKube)

/-- Go map write `s.DiscoveredClusters[id] = kube`: any previous binding of
the key is replaced. -/
def indexInsert (idx : Index) (k : String) (v : ExoscaleKube) : Index :=
  (k, v) :: (List.filter (fun p => p.1 != k) idx)

/-- Go map read of the index by cluster UUID. -/
def indexLookup (idx : Index) (k : String) : Option ExoscaleKube :=
  (List.find? (fun p => p.1 == k) idx).map Prod.snd

/-- One event on the search channel (`storetypes.SearchResult`): a
kubeconfig path and an optional error, errors modelled as strings. -/
structure SearchResult where
  KubeconfigPath : String
  Error : Option String
deriving DecidableEq, Repr

/-- Provider behaviour seen by `StartSearch`: the zone-listing call and the
per-endpoint cluster-listing call, each either failing or returning
records. -/
structure DiscoverEnv where
  listZones : Except String (List Zone)
  listSKSClusters : String → Except String (List SKSCluster)

/-- The inner cluster loop of `StartSearch` for one zone: record each
cluster in the index (keyed by UUID), then emit a success event with path
`zoneName/clusterName`. -/
def emitClusters (z : Zone) : List SKSCluster → Index → List SearchResult × Index
  | [], idx => ([], idx)
  | c :: rest, idx =>
      let idx1 := indexInsert idx c.ID ⟨c.ID, c.Name, z.Name, z.APIEndpoint⟩
      let out := emitClusters z rest idx1
      (⟨z.Name ++ "/" ++ c.Name, none⟩ :: out.1, out.2)

/-- The zone loop of `StartSearch`: a zone whose cluster listing fails is
only logged (no event) and the loop continues with the next zone. -/
def searchZones (env : DiscoverEnv) : List Zone → Index → List SearchResult × Index
  | [], idx => ([], idx)
  | z :: rest, idx =>
      match env.listSKSClusters z.APIEndpoint with
      | .error _ => searchZones env rest idx
      | .ok clusters =>
          let out1 := emitClusters z clusters idx
          let out2 := searchZones env rest out1.2
          (out1.1 ++ out2.1, out2.2)

/-- `StartSearch` (source lines 115-172): on zone-listing failure emit the
single wrapped error event and stop; otherwise run the zone loop.  The
result collects the events sent on the channel, in order, together with
the final index. -/
def startSearch (env : DiscoverEnv) (idx : Index) : List SearchResult × Index :=
  match env.listZones with
  | .error e => ([⟨"", some ("failed to list zones: " ++ e)⟩], idx)
  | .ok zones => searchZones env zones idx

/-- Events the zone loop produces for one zone: none when its listing
fails, one success event per cluster otherwise. -/
def zoneEvents (env : DiscoverEnv) (z : Zone) : List SearchResult :=
  match env.listSKSClusters z.APIEndpoint with
  | .error _ => []
  | .ok clusters => clusters.map (fun c => ⟨z.Name ++ "/" ++ c.Name, none⟩)

/-- Index insertions the zone loop performs for one zone, as key/value
pairs in insertion order. -/
def zonePairs (env : DiscoverEnv) (z : Zone) : List (String × ExoscaleKube) :=
  match env.listSKSClusters z.APIEndpoint with
  | .error _ => []
  | .ok clusters => clusters.map (fun c => (c.ID, ⟨c.ID, c.Name, z.Name, z.APIEndpoint⟩))

/-- The kubeconfig-generation request built by `GetKubeconfigForPath`
(`v3.SKSKubeconfigRequest`). -/
structure SKSKubeconfigRequest where
  groups : List String
  user : String
  ttl : Nat
deriving DecidableEq, Repr

/-- One credential-generation call issued to the provider: the zone
endpoint the client was scoped to, the cluster UUID, and the request. -/
structure GenCall where
  endpoint : String
  clusterID : String
  request : SKSKubeconfigRequest
deriving DecidableEq, Repr

/-- Error taxonomy of `GetKubeconfigForPath`, one constructor per `return
nil, fmt.Errorf(...)` site, each carrying the offending path where the
source message includes it. -/
inductive ResolveErr where
  | malformedPath (path : String)
  | clusterNotFound (path : String)
  | credentialGenerationFailed (path : String)
  | decodeFailed (path : String)
  | parseFailed (path : String)
  | serializeFailed (path : String)
deriving DecidableEq, Repr

/-- External collaborators of `GetKubeconfigForPath`, as oracles:
`GenerateSKSClusterKubeconfig` (keyed by endpoint, cluster UUID and
request), `base64.StdEncoding.DecodeString`, `clientcmd.Load` and
`clientcmd.Write`.  Payloads and raw bytes are modelled as strings. -/
structure MaterializerEnv where
  generate : String → String → SKSKubeconfigRequest → Except String String
  decodeBase64 : String → Except String String
  loadConfig : String → Except String Kubeconfig
  writeConfig : Kubeconfig → Except String String

/-- Split a character list at the first `'/'`: `none` when the list has no
separator, otherwise the characters before it and the characters after
it. -/
def splitFirst : List Char → Option (List Char × List Char)
  | [] => none
  | c :: rest =>
      if c = '/' then some ([], rest)
      else
        match splitFirst rest with
        | none => none
        | some (pre, post) => some (c :: pre, post)

/-- Go's `strings.SplitN(path, "/", 2)`: at most two pieces, split at the
first separator; a path without a separator yields a single piece.  The
separator is a single character, so a character-level split is exact. -/
def splitN2 (s : String) : List String :=
  match splitFirst s.toList with
  | none => [s]
  | some (pre, post) => [String.mk pre, String.mk post]

theorem splitFirst_eq_none_iff (cs : List Char) :
    splitFirst cs = none ↔ '/' ∉ cs := by
  induction cs with
  | nil => simp [splitFirst]
  | cons c rest ih =>
      by_cases hc : c = '/'
      · simp [splitFirst, hc]
      · cases hr : splitFirst rest with
        | none => simp [splitFirst, hc, hr, ← ih, Ne.symm hc]
        | some pr => simp [splitFirst, hc, hr, Ne.symm hc, ← ih]

/-- The index scan of `GetKubeconfigForPath` (source lines 186-192): first
entry matching both zone name and cluster name, list order standing in for
Go's arbitrary map-iteration order. -/
def findCluster (idx : Index) (zoneName clusterName : String) : Option ExoscaleKube :=
  (List.find? (fun p => p.2.ZoneName == zoneName && p.2.Name == clusterName) idx).map
    Prod.snd

instance [DecidableEq ε] [DecidableEq α] : DecidableEq (Except ε α) := fun a b => by
  cases a <;> cases b
  case error.error x y =>
    exact if h : x = y then isTrue (by rw [h]) else
      isFalse (by intro hc; injection hc; contradiction)
  case error.ok x y => exact isFalse (by intro hc; injection hc)
  case ok.error x y => exact isFalse (by intro hc; injection hc)
  case ok.ok x y =>
    exact if h : x = y then isTrue (by rw [h]) else
      isFalse (by intro hc; injection hc; contradiction)

/-- Observable outcome of one `GetKubeconfigForPath` call: the returned
value or error, the credential-generation calls issued to the provider,
the rewritten document that was serialized and returned (when any), and
the index as left behind by the call. -/
structure ResolveOutcome where
  result : Except ResolveErr String
  requests : List GenCall
  doc : Option Kubeconfig
  index : Index
deriving DecidableEq, Repr

/-- `GetKubeconfigForPath` (source lines 176-270).  The extra-context map
argument is accepted and unused, as in the source.  The index is threaded
through and returned so that the call's effect on it is observable. -/
def resolveCredential (env : MaterializerEnv) (idx : Index) (path : String)
    (_extra : List (String × String)) : ResolveOutcome :=
  match splitN2 path with
  | [zoneName, clusterName] =>
      match findCluster idx zoneName clusterName with
      | none => ⟨.error (.clusterNotFound path), [], none, idx⟩
      | some m =>
          let req : SKSKubeconfigRequest := ⟨["system:masters"], "default", 2592000⟩
          let calls : List GenCall := [⟨m.ZoneEndpoint, m.ID, req⟩]
          match env.generate m.ZoneEndpoint m.ID req with
          | .error _ => ⟨.error (.credentialGenerationFailed path), calls, none, idx⟩
          | .ok payload =>
              match env.decodeBase64 payload with
              | .error _ => ⟨.error (.decodeFailed path), calls, none, idx⟩
              | .ok raw =>
                  match env.loadConfig raw with
                  | .error _ => ⟨.error (.parseFailed path), calls, none, idx⟩
                  | .ok cfg =>
                      let cfg2 := rewriteIdentity cfg clusterName
                      match env.writeConfig cfg2 with
                      | .error _ => ⟨.error (.serializeFailed path), calls, none, idx⟩
                      | .ok bytes => ⟨.ok bytes, calls, some cfg2, idx⟩
  | _ => ⟨.error (.malformedPath path), [], none, idx⟩

/-- Cross-reference integrity of a kubeconfig document: every context
entry references an existing cluster key, and a non-empty current-context
pointer references an existing context key. -/
def noDangling (cfg : Kubeconfig) : Bool :=
  cfg.contexts.all (fun p => (mapLookup cfg.clusters p.2.cluster).isSome) &&
    (cfg.currentContext == "" || (mapLookup cfg.contexts cfg.currentContext).isSome)

theorem emitClusters_eq (z : Zone) (cs : List SKSCluster) (idx : Index) :
    emitClusters z cs idx =
      (cs.map (fun c => (⟨z.Name ++ "/" ++ c.Name, none⟩ : SearchResult)),
       (cs.map (fun c => (c.ID, (⟨c.ID, c.Name, z.Name, z.APIEndpoint⟩ : ExoscaleKube)))).foldl
         (fun i p => indexInsert i p.1 p.2) idx) := by
  induction cs generalizing idx with
  | nil => rfl
  | cons c rest ih => simp [emitClusters, ih]

theorem searchZones_eq (env : DiscoverEnv) (zones : List Zone) (idx : Index) :
    searchZones env zones idx =
      (zones.flatMap (zoneEvents env),
       ((zones.flatMap (zonePairs env)).foldl (fun i p => indexInsert i p.1 p.2) idx)) := by
  induction zones generalizing idx with
  | nil => rfl
  | cons z rest ih =>
      cases h : env.listSKSClusters z.APIEndpoint with
      | error e => simp [searchZones, h, zoneEvents, zonePairs, ih]
      | ok cs =>
          simp [searchZones, h, zoneEvents, zonePairs, ih, emitClusters_eq,
            List.foldl_append]

theorem indexLookup_insert_self (idx : Index) (k : String) (v : ExoscaleKube) :
    indexLookup (indexInsert idx k v) k = some v := by
  simp [indexLookup, indexInsert, List.find?]

theorem find?_filter_of_ne (idx : Index) {k k' : String} (h : k' ≠ k) :
    List.find? (fun p => p.1 == k') (List.filter (fun p => p.1 != k) idx) =
      List.find? (fun p => p.1 == k') idx := by
  have hkk : (k == k') = false := by
    simp
    exact fun hc => h hc.symm
  induction idx with
  | nil => rfl
  | cons p rest ih =>
      by_cases hk : p.1 = k
      · simp [List.filter_cons, List.find?_cons, hk, hkk, h, ih]
      · by_cases hk' : p.1 = k'
        · simp [List.filter_cons, List.find?_cons, hk, hk', h, ih]
        · simp [List.filter_cons, List.find?_cons, hk, hk', h, ih]

theorem indexLookup_insert_of_ne (idx : Index) {k k' : String} (v : ExoscaleKube)
    (h : k' ≠ k) :
    indexLookup (indexInsert idx k v) k' = indexLookup idx k' := by
  have hne : (k == k') = false := by
    simp
    exact fun hc => h hc.symm
  simp [indexLookup, indexInsert, List.find?_cons, hne, find?_filter_of_ne idx h]

theorem indexLookup_foldl_of_not_mem (ps : List (String × ExoscaleKube)) (idx : Index)
    {k : String} (h : k ∉ ps.map Prod.fst) :
    indexLookup (ps.foldl (fun i p => indexInsert i p.1 p.2) idx) k = indexLookup idx k := by
  induction ps generalizing idx with
  | nil => rfl
  | cons p rest ih =>
      simp only [List.map_cons, List.mem_cons, not_or] at h
      simp only [List.foldl_cons]
      rw [ih _ h.2, indexLookup_insert_of_ne idx p.2 h.1]

theorem indexLookup_foldl_of_mem (ps : List (String × ExoscaleKube)) (idx : Index)
    {k : String} {v : ExoscaleKube} (hnd : (ps.map Prod.fst).Nodup)
    (hmem : (k, v) ∈ ps) :
    indexLookup (ps.foldl (fun i p => indexInsert i p.1 p.2) idx) k = some v := by
  induction ps generalizing idx with
  | nil => cases hmem
  | cons p rest ih =>
      simp only [List.map_cons, List.nodup_cons] at hnd
      simp only [List.foldl_cons]
      rcases List.mem_cons.mp hmem with h1 | h2
      · have hk : p.1 = k := by rw [← h1]
        have hv : p.2 = v := by rw [← h1]
        rw [indexLookup_foldl_of_not_mem rest _ (by rw [← hk]; exact hnd.1)]
        rw [hk, hv, indexLookup_insert_self]
      · exact ih _ hnd.2 h2

theorem filter_matching_after_erase (l : List (String × ExoscaleKube)) (k : String) :
    List.filter (fun p => p.1 == k) (List.filter (fun p => p.1 != k) l) = [] := by
  induction l with
  | nil => rfl
  | cons p rest ih =>
      by_cases h : p.1 = k <;> simp [List.filter_cons, h, ih]

theorem flatMap_congr_mem {α β : Type} (l : List α) (f g : α → List β)
    (h : ∀ a ∈ l, f a = g a) : l.flatMap f = l.flatMap g := by
  induction l with
  | nil => rfl
  | cons a rest ih =>
      simp only [List.flatMap_cons, h a (List.mem_cons_self a rest)]
      rw [ih (fun b hb => h b (List.mem_cons_of_mem a hb))]

/-- Provider-convention document shape assumed by the rewrite: exactly one
cluster entry keyed by some old name k; a contexts mapping that is empty
or consists of exactly one entry keyed k; a current-context that is empty
or equal to k and, when it equals k, actually points at a context entry
(the contexts mapping is non-empty in that case); and a target name that
differs from k. -/
def conventionShape (cfg : Kubeconfig) (newName : String) : Prop :=
  ∃ k c, cfg.clusters = [(k, c)] ∧ newName ≠ k ∧
    (cfg.contexts = [] ∨ ∃ ctx, cfg.contexts = [(k, ctx)]) ∧
    (cfg.currentContext = "" ∨ cfg.currentContext = k) ∧
    (cfg.currentContext = k → cfg.contexts ≠ [])

/-- Claim C1: for a document whose single cluster key, single context key
(with cluster reference equal to it) and current-context are all
"abc-123", the identity rewrite with target "mycluster" renames all three
occurrences to "mycluster" and leaves the cluster value, the context's
auth-info reference and the user entries unchanged. -/
theorem claim1_rename_invariant (c ui : String) (users : List (String × String)) :
    rewriteIdentity
        ⟨[("abc-123", c)], [("abc-123", ⟨"abc-123", ui⟩)], users, "abc-123"⟩
        "mycluster"
      = ⟨[("mycluster", c)], [("mycluster", ⟨"mycluster", ui⟩)], users,
         "mycluster"⟩ := by
  rfl

/-- Input document for the claim C2 counterexample: its only context is
keyed "ctx1", not by the cluster key "abc-123". -/
def cexDoc2 : Kubeconfig :=
  ⟨[("abc-123", "cdata")], [("ctx1", ⟨"abc-123", "default"⟩)],
   [("default", "udata")], "ctx1"⟩

/-- Oracle environment for the claim C2 counterexample: every collaborator
succeeds and parsing yields `cexDoc2`. -/
def cexEnv2 : MaterializerEnv :=
  ⟨fun _ _ _ => .ok "payload", fun _ => .ok "raw", fun _ => .ok cexDoc2,
   fun _ => .ok "bytes"⟩

/-- Index for the claim C2 counterexample, holding the targeted cluster. -/
def cexIdx2 : Index := [("id-1", ⟨"id-1", "mycluster", "z1", "ep1"⟩)]

/-- Claim C2 is false as stated: this resolveCredential call succeeds, yet
the returned document's context "ctx1" still references cluster "abc-123",
which no longer exists after the cluster key was renamed to "mycluster" —
a partially-renamed document with a dangling cross-reference. -/
theorem claim2_counterexample :
    (resolveCredential cexEnv2 cexIdx2 "z1/mycluster" []).result = .ok "bytes" ∧
    ((resolveCredential cexEnv2 cexIdx2 "z1/mycluster" []).doc).map noDangling
      = some false := by
  decide

/-- Claim C2 as amended: when the parsed document follows the provider
convention — exactly one cluster entry keyed by an old name k, a contexts
mapping that is empty or is exactly one entry keyed k, a current-context
that is empty or equal to k and points at an existing context entry when
it equals k, and a target name different from k — the rewritten document
has no dangling cross-references. -/
theorem claim2_amended_no_dangling (cfg : Kubeconfig) (newName : String)
    (h : conventionShape cfg newName) :
    noDangling (rewriteIdentity cfg newName) = true := by
  obtain ⟨k, c, hcl, hnew, hcx, hcc, himp⟩ := h
  obtain ⟨cl, cx, us, cc⟩ := cfg
  simp only at hcl hcx hcc himp
  subst hcl
  have hkn : k ≠ newName := fun hc => hnew hc.symm
  rcases hcx with hcx | ⟨ctx, hcx⟩
  · subst hcx
    have hne : cc ≠ k := fun h0 => himp h0 rfl
    rcases hcc with h0 | h0
    · subst h0
      simp [rewriteIdentity, oldClusterName, mapLookup, mapInsert, mapErase,
        noDangling, hkn, hne]
    · exact absurd h0 hne
  · subst hcx
    rcases hcc with h0 | h0 <;> subst h0
    · by_cases hk0 : k = ""
      · subst hk0
        simp [rewriteIdentity, oldClusterName, mapLookup, mapInsert, mapErase,
          noDangling, hkn]
        tauto
      · simp [rewriteIdentity, oldClusterName, mapLookup, mapInsert, mapErase,
          noDangling, hkn, Ne.symm hk0]
    · simp [rewriteIdentity, oldClusterName, mapLookup, mapInsert, mapErase,
        noDangling, hkn]
      tauto

/-- Witness for the amended claim C2, at the provider-convention document
of claim C1. -/
theorem claim2_amended_witness :
    noDangling (rewriteIdentity
      ⟨[("abc-123", "cdata")], [("abc-123", ⟨"abc-123", "default"⟩)],
       [("default", "udata")], "abc-123"⟩ "mycluster") = true :=
  claim2_amended_no_dangling _ "mycluster"
    ⟨"abc-123", "cdata", rfl, by decide,
     Or.inr ⟨⟨"abc-123", "default"⟩, rfl⟩, Or.inr rfl, fun _ => by decide⟩

/-- Claim C7 is false as stated: on a document with zero cluster entries
and an empty current-context, the rewrite is not a no-op — the empty
current-context equals the detected old name "" and is set to the target
cluster name. -/
theorem claim7_counterexample :
    rewriteIdentity ⟨[], [], [("default", "udata")], ""⟩ "mycluster"
        = ⟨[], [], [("default", "udata")], "mycluster"⟩ ∧
    rewriteIdentity ⟨[], [], [("default", "udata")], ""⟩ "mycluster"
        ≠ ⟨[], [], [("default", "udata")], ""⟩ := by
  decide

/-- Claim C7 as amended: on a document with zero cluster entries the
rewrite is a no-op (and not an error) provided no context entry is keyed
by the empty string and the current-context is non-empty; otherwise the
empty string is treated as the old name and renamed to the target. -/
theorem claim7_empty_clusters_noop (cfg : Kubeconfig) (newName : String)
    (h1 : cfg.clusters = []) (h2 : mapLookup cfg.contexts "" = none)
    (h3 : cfg.currentContext ≠ "") :
    rewriteIdentity cfg newName = cfg := by
  obtain ⟨cl, cx, us, cc⟩ := cfg
  simp only at h1 h2 h3
  subst h1
  simp only [mapLookup] at h2
  simp [rewriteIdentity, oldClusterName, mapLookup, h2, h3]

/-- Witness for the amended claim C7: a cluster-less document with a
conventional context and a non-empty current-context passes through the
rewrite unchanged. -/
theorem claim7_witness :
    rewriteIdentity ⟨[], [("ctx1", ⟨"c1", "default"⟩)], [("default", "u")], "ctx1"⟩
        "mycluster"
      = ⟨[], [("ctx1", ⟨"c1", "default"⟩)], [("default", "u")], "ctx1"⟩ :=
  claim7_empty_clusters_noop _ "mycluster" rfl (by decide) (by decide)

/-- Claim C4: when the top-level zone listing fails, the discovery pass
emits exactly one event, that event carries the wrapped failure as an
error, no success event is emitted, and the index is unchanged. -/
theorem claim4_zone_listing_failure (env : DiscoverEnv) (idx : Index) (e : String)
    (h : env.listZones = .error e) :
    (startSearch env idx).1 = [⟨"", some ("failed to list zones: " ++ e)⟩] ∧
    (startSearch env idx).2 = idx := by
  simp [startSearch, h]

/-- Environment for the claim C4 witness: the zone listing itself fails. -/
def envC4 : DiscoverEnv := ⟨.error "boom", fun _ => .ok []⟩

/-- Witness for claim C4 at a concrete failing environment. -/
theorem claim4_witness :
    (startSearch envC4 []).1 = [⟨"", some "failed to list zones: boom"⟩] ∧
    (startSearch envC4 []).2 = [] := by
  simpa using claim4_zone_listing_failure envC4 [] "boom" rfl

/-- Claim C5: when zone listing succeeds, the emitted events are exactly
the per-zone success events — a failing zone contributes none (its error
is only logged), every cluster of a non-failing zone contributes exactly
one success event — and no event on the stream carries an error. -/
theorem claim5_partial_failure (env : DiscoverEnv) (idx : Index) (zones : List Zone)
    (h : env.listZones = .ok zones) :
    (startSearch env idx).1 = zones.flatMap (zoneEvents env) ∧
    (∀ ev ∈ (startSearch env idx).1, ev.Error = none) ∧
    ∀ z ∈ zones, ∀ cs, env.listSKSClusters z.APIEndpoint = .ok cs →
      ∀ c ∈ cs, (⟨z.Name ++ "/" ++ c.Name, none⟩ : SearchResult)
        ∈ (startSearch env idx).1 := by
  have hs := searchZones_eq env zones idx
  have hev : (startSearch env idx).1 = zones.flatMap (zoneEvents env) := by
    simp [startSearch, h, hs]
  refine ⟨hev, ?_, ?_⟩
  · intro ev hmem
    rw [hev] at hmem
    obtain ⟨z, _, hz⟩ := List.mem_flatMap.mp hmem
    unfold zoneEvents at hz
    cases hc : env.listSKSClusters z.APIEndpoint with
    | error e => rw [hc] at hz; cases hz
    | ok cs =>
        rw [hc] at hz
        obtain ⟨c, _, hcev⟩ := List.mem_map.mp hz
        rw [← hcev]
  · intro z hz cs hcs c hc
    rw [hev]
    refine List.mem_flatMap.mpr ⟨z, hz, ?_⟩
    unfold zoneEvents
    rw [hcs]
    exact List.mem_map.mpr ⟨c, hc, rfl⟩

/-- Environment for the claim C5 witness: zone "z1" lists one cluster,
zone "z2" fails its cluster listing. -/
def envC5 : DiscoverEnv :=
  ⟨.ok [⟨"z1", "ep1"⟩, ⟨"z2", "ep2"⟩],
   fun ep => if ep == "ep1" then .ok [⟨"id1", "c1"⟩] else .error "down"⟩

/-- Witness for claim C5: with one healthy and one failing zone, the
stream holds exactly the healthy zone's success event. -/
theorem claim5_witness :
    (startSearch envC5 []).1 = [⟨"z1/c1", none⟩] := by
  have h := (claim5_partial_failure envC5 [] [⟨"z1", "ep1"⟩, ⟨"z2", "ep2"⟩] rfl).1
  rw [h]
  decide

/-- Claim C6: when zone listing succeeds and every zone's cluster listing
succeeds, the stream consists of exactly one success event per cluster
with path `zoneName/clusterName`, in provider zone order and cluster order
within a zone, and — the discovered ids being pairwise distinct, as the
data model guarantees — the index afterwards maps each cluster's id to its
record with name, zone name and zone endpoint. -/
theorem claim6_full_success (env : DiscoverEnv) (idx : Index) (zones : List Zone)
    (clustersOf : Zone → List SKSCluster)
    (hz : env.listZones = .ok zones)
    (hok : ∀ z ∈ zones, env.listSKSClusters z.APIEndpoint = .ok (clustersOf z))
    (hnd : ((zones.flatMap (zonePairs env)).map Prod.fst).Nodup) :
    (startSearch env idx).1
        = zones.flatMap (fun z => (clustersOf z).map
            (fun c => (⟨z.Name ++ "/" ++ c.Name, none⟩ : SearchResult))) ∧
    ∀ z ∈ zones, ∀ c ∈ clustersOf z,
      indexLookup (startSearch env idx).2 c.ID
        = some ⟨c.ID, c.Name, z.Name, z.APIEndpoint⟩ := by
  have hs := searchZones_eq env zones idx
  constructor
  · have hev : (startSearch env idx).1 = zones.flatMap (zoneEvents env) := by
      simp [startSearch, hz, hs]
    rw [hev]
    refine flatMap_congr_mem zones _ _ (fun z hzm => ?_)
    unfold zoneEvents
    rw [hok z hzm]
  · intro z hzm c hc
    have hidx : (startSearch env idx).2
        = (zones.flatMap (zonePairs env)).foldl
            (fun i p => indexInsert i p.1 p.2) idx := by
      simp [startSearch, hz, hs]
    rw [hidx]
    refine indexLookup_foldl_of_mem _ _ hnd ?_
    refine List.mem_flatMap.mpr ⟨z, hzm, ?_⟩
    unfold zonePairs
    rw [hok z hzm]
    exact List.mem_map.mpr ⟨c, hc, rfl⟩

/-- Environment for the claim C6 witness: two healthy zones with two and
one clusters. -/
def envC6 : DiscoverEnv :=
  ⟨.ok [⟨"z1", "ep1"⟩, ⟨"z2", "ep2"⟩],
   fun ep => if ep == "ep1" then .ok [⟨"id1", "c1"⟩, ⟨"id2", "c2"⟩]
     else .ok [⟨"id3", "c3"⟩]⟩

/-- Cluster lists per zone for the claim C6 witness. -/
def clustersOfC6 : Zone → List SKSCluster :=
  fun z => if z.APIEndpoint == "ep1" then [⟨"id1", "c1"⟩, ⟨"id2", "c2"⟩]
    else [⟨"id3", "c3"⟩]

/-- Witness for claim C6 at a concrete two-zone environment: the expected
event stream and one concrete index entry. -/
theorem claim6_witness :
    (startSearch envC6 []).1
        = [⟨"z1/c1", none⟩, ⟨"z1/c2", none⟩, ⟨"z2/c3", none⟩] ∧
    indexLookup (startSearch envC6 []).2 "id3" = some ⟨"id3", "c3", "z2", "ep2"⟩ := by
  have h := claim6_full_success envC6 [] [⟨"z1", "ep1"⟩, ⟨"z2", "ep2"⟩] clustersOfC6
    rfl (by decide) (by decide)
  constructor
  · rw [h.1]
    decide
  · exact h.2 ⟨"z2", "ep2"⟩ (by decide) ⟨"id3", "c3"⟩ (by decide)

/-- Environment for the claim C8 counterexample: one zone returns two
clusters with the same name "dup" but distinct provider ids. -/
def envC8 : DiscoverEnv :=
  ⟨.ok [⟨"z1", "ep1"⟩],
   fun _ => .ok [⟨"id1", "dup"⟩, ⟨"id2", "dup"⟩]⟩

/-- Claim C8 is false as stated: the index is keyed by provider id, not by
name, so two same-named clusters with distinct ids both remain in the
index — it holds two entries for name "dup" in zone "z1", not one. -/
theorem claim8_counterexample :
    (List.filter (fun p => p.2.Name == "dup" && p.2.ZoneName == "z1")
        (startSearch envC8 []).2).length = 2 ∧
    (List.filter (fun p => p.2.Name == "dup" && p.2.ZoneName == "z1")
        (startSearch envC8 []).2).length ≠ 1 := by
  decide

/-- Claim C8 as amended: the silent overwrite happens when the same zone
returns two clusters with the same provider id — the later one wins, and
the index afterwards holds exactly one entry for that id, carrying the
later cluster's name; same-named clusters with distinct ids both remain. -/
theorem claim8_same_id_overwrite (env : DiscoverEnv) (idx : Index) (z : Zone)
    (c1 c2 : SKSCluster)
    (hz : env.listZones = .ok [z])
    (hc : env.listSKSClusters z.APIEndpoint = .ok [c1, c2])
    (hid : c1.ID = c2.ID) :
    indexLookup (startSearch env idx).2 c1.ID
        = some ⟨c2.ID, c2.Name, z.Name, z.APIEndpoint⟩ ∧
    (List.filter (fun p => p.1 == c1.ID) (startSearch env idx).2).length = 1 := by
  have hs := searchZones_eq env [z] idx
  have hidx : (startSearch env idx).2
      = indexInsert (indexInsert idx c1.ID ⟨c1.ID, c1.Name, z.Name, z.APIEndpoint⟩)
          c2.ID ⟨c2.ID, c2.Name, z.Name, z.APIEndpoint⟩ := by
    simp [startSearch, hz, hs, zonePairs, hc]
  rw [hidx, hid]
  exact ⟨indexLookup_insert_self _ _ _, by
    simp [indexInsert, List.filter_cons, filter_matching_after_erase]⟩

/-- Environment for the amended claim C8 witness: one zone returns two
clusters sharing the provider id "id1". -/
def envC8b : DiscoverEnv :=
  ⟨.ok [⟨"z1", "ep1"⟩], fun _ => .ok [⟨"id1", "older"⟩, ⟨"id1", "newer"⟩]⟩

/-- Witness for the amended claim C8: the later same-id cluster's record
is the only entry left for that id. -/
theorem claim8_witness :
    indexLookup (startSearch envC8b []).2 "id1"
        = some ⟨"id1", "newer", "z1", "ep1"⟩ ∧
    (List.filter (fun p => p.1 == "id1") (startSearch envC8b []).2).length = 1 :=
  claim8_same_id_overwrite envC8b [] ⟨"z1", "ep1"⟩ ⟨"id1", "older"⟩ ⟨"id1", "newer"⟩
    rfl rfl rfl

/-- Oracle environment for the claim C3 counterexample; its behaviour past
the path parse is irrelevant. -/
def envC3 : MaterializerEnv :=
  ⟨fun _ _ _ => .error "unused", fun _ => .error "unused",
   fun _ => .error "unused", fun _ => .error "unused"⟩

/-- Claim C3 is false as stated: a path with two separators, "a/b/c", is
not rejected as malformed — `strings.SplitN(path, "/", 2)` yields the two
pieces "a" and "b/c", so the call proceeds to the index lookup and fails
there with the not-found error instead. -/
theorem claim3_counterexample :
    (resolveCredential envC3 [] "a/b/c" []).result
        = .error (.clusterNotFound "a/b/c") ∧
    (resolveCredential envC3 [] "a/b/c" []).result
        ≠ .error (.malformedPath "a/b/c") := by
  decide

/-- Claim C3 as amended: resolveCredential returns the malformed-path
error for exactly the paths that contain no '/' separator at all; a path
with one or more separators is split at the first one, everything after it
(separators included) becoming the cluster-name segment. -/
theorem claim3_malformed_iff (env : MaterializerEnv) (idx : Index) (path : String)
    (extra : List (String × String)) :
    (resolveCredential env idx path extra).result = .error (.malformedPath path)
      ↔ '/' ∉ path.toList := by
  cases hsf : splitFirst path.toList with
  | none =>
      have hni : '/' ∉ path.toList := (splitFirst_eq_none_iff _).mp hsf
      have hsf2 : splitFirst path.data = none := hsf
      have hni2 : '/' ∉ path.data := hni
      simp [resolveCredential, splitN2, hsf2, hni2]
  | some pr =>
      have hmem : '/' ∈ path.toList := by
        by_contra hni
        rw [(splitFirst_eq_none_iff _).mpr hni] at hsf
        cases hsf
      obtain ⟨pre, post⟩ := pr
      have hsf2 : splitFirst path.data = some (pre, post) := hsf
      have hne : ¬ (resolveCredential env idx path extra).result
          = .error (.malformedPath path) := by
        simp only [resolveCredential, splitN2, hsf2]
        repeat' split
        all_goals try simp
        all_goals
          rename_i hcontra
          exact hcontra (String.mk pre) (String.mk post) (by rw [hsf])
      exact iff_of_false hne (fun hc => hc hmem)

/-- Claim C9: whenever the path parses into two segments that match an
index entry, resolveCredential issues exactly one credential-generation
request, scoped to that entry's zone endpoint and cluster id, with groups
["system:masters"], user "default" and a TTL of 2592000 seconds — whatever
the provider then answers. -/
theorem claim9_request_shape (env : MaterializerEnv) (idx : Index) (path : String)
    (extra : List (String × String)) (zoneName clusterName : String)
    (m : ExoscaleKube)
    (hsplit : splitN2 path = [zoneName, clusterName])
    (hfind : findCluster idx zoneName clusterName = some m) :
    (resolveCredential env idx path extra).requests
      = [⟨m.ZoneEndpoint, m.ID, ⟨["system:masters"], "default", 2592000⟩⟩] := by
  simp only [resolveCredential, hsplit, hfind]
  repeat' (first | split | dsimp only)

/-- Oracle environment for the claim C9 witness. -/
def envC9 : MaterializerEnv :=
  ⟨fun _ _ _ => .ok "payload", fun _ => .ok "raw",
   fun _ => .ok ⟨[], [], [], ""⟩, fun _ => .ok "bytes"⟩

/-- Index for the claim C9 witness. -/
def idxC9 : Index := [("id-1", ⟨"id-1", "mycluster", "z1", "ep1"⟩)]

/-- Witness for claim C9 at a concrete resolving path. -/
theorem claim9_witness :
    (resolveCredential envC9 idxC9 "z1/mycluster" []).requests
      = [⟨"ep1", "id-1", ⟨["system:masters"], "default", 2592000⟩⟩] :=
  claim9_request_shape envC9 idxC9 "z1/mycluster" [] "z1" "mycluster"
    ⟨"id-1", "mycluster", "z1", "ep1"⟩ (by decide) (by decide)

/-- Claim C10: a resolveCredential call never changes the index — for
every environment, index, path and extra context, the index after the call
equals the index before it, whether the call returns bytes or fails. -/
theorem claim10_index_frame (env : MaterializerEnv) (idx : Index) (path : String)
    (extra : List (String × String)) :
    (resolveCredential env idx path extra).index = idx := by
  unfold resolveCredential
  repeat' (first | split | dsimp only)


